import Mathlib

/-!
Shallow embedding of the gemini-transcribe upload service.

The definitions below are translated from the repository source:
  - src/routes/api/upload/+server.ts : rate limiting (checkRateLimit),
    multipart ingestion (the Busboy event handlers), the duration probe
    gate, temp-artifact cleanup, the poll loop, the model-fallback loop,
    and the stream relay (streamChunks).
  - src/routes/api/rate/+server.ts : the rating endpoint.
  - src/lib/server/db.ts : saveRating / logUsage effects on the usage store.

External effects (the transcription provider, the filesystem, timers) are
represented by explicit input data: each nondeterministic outcome of an
external call is a parameter of the embedded function, and the function
computes exactly what the handler does with that outcome (status code,
response body, counter mutations, which temporary files are created and
deleted, what is written to the usage ledger, which waits are performed).
-/

/-- JS String.prototype.startsWith on character lists (helper for includes). -/
def hasPrefixL : List Char → List Char → Bool
  | _, [] => true
  | [], _ :: _ => false
  | c :: cs, d :: ds => c = d && hasPrefixL cs ds

/-- JS String.prototype.includes on character lists. -/
def hasSubL : List Char → List Char → Bool
  | [], sub => sub.isEmpty
  | c :: cs, sub => hasPrefixL (c :: cs) sub || hasSubL cs sub

/-- JS String.prototype.includes: does s contain sub as a substring. -/
def strIncludes (s sub : String) : Bool :=
  hasSubL s.toList sub.toList

/-- Stream relay (streamChunks in +server.ts): for each provider chunk,
forward chunk.text iff it is truthy (present and non-empty). -/
def streamChunks : List (Option String) → List String
  | [] => []
  | c :: rest =>
    match c with
    | some t => if t = "" then streamChunks rest else t :: streamChunks rest
    | none => streamChunks rest

/-! Multipart ingestion (the Busboy event handlers in POST, +server.ts).
A request body is a sequence of parts; each part is either a plain form
field or a file part carrying a field name, filename, MIME type and byte
content. -/

inductive BodyPart where
  | fieldPart (name value : String)
  | filePart (name filename mimeType : String) (content : List Nat)
deriving DecidableEq, Repr

/-- State built up while Busboy emits part events: the language form field,
the temp files written so far (MIME type and full byte content, in creation
order), the index of the temp file currently referenced by tempFileHandle,
and uploadedFileMime. -/
structure IngestState where
  language : String
  written : List (String × List Nat)
  handle : Option Nat
  uploadedFileMime : Option String
deriving DecidableEq, Repr

/-- One Busboy part event, as handled in POST:
  - a field event stores the value under the language variable when the
    field name is language (JS: value or-else English when falsy);
  - a file event with field name file creates a fresh temp file, streams the
    part into it, and updates tempFileHandle / uploadedFileMime;
  - any other file event is drained (fileStream.resume()) and not written. -/
def ingestStep (s : IngestState) : BodyPart → IngestState
  | .fieldPart n v =>
    if n = "language" then
      { s with language := if v = "" then "English" else v }
    else s
  | .filePart n _ m c =>
    if n = "file" then
      { s with
        written := s.written ++ [(m, c)]
        handle := some s.written.length
        uploadedFileMime := some m }
    else s

/-- Run the Busboy event handlers over a list of parts. -/
def runIngest (ps : List BodyPart) : IngestState :=
  ps.foldl ingestStep
    { language := "English", written := [], handle := none, uploadedFileMime := none }

/-- Ingestion input to the POST handler: the parts of the multipart body,
and the point of parse failure, if any (errorAt = some k means Busboy
errored after processing the first k parts, so parsePromise rejects). -/
structure IngestInput where
  parts : List BodyPart
  errorAt : Option Nat
deriving DecidableEq, Repr

/-- The parts actually processed before completion or failure. -/
def IngestInput.processed (mi : IngestInput) : List BodyPart :=
  match mi.errorAt with
  | some k => mi.parts.take k
  | none => mi.parts

/-! Rate limiting (checkRateLimit and the admission/refund code in POST). -/

structure RateRecord where
  count : Int
  expires : Int
deriving DecidableEq, Repr

def RATE_LIMIT : Int := 5

/-- The window length: 24 hours in milliseconds (DURATION in +server.ts). -/
def DURATION : Int := 24 * 60 * 60 * 1000

def MAX_MEDIA_DURATION_MS : Nat := 2 * 60 * 60 * 1000

def MAX_UPLOAD_BYTES : Nat := 256 * 1024 * 1024

/-- checkRateLimit in +server.ts, for a single client identifier: the state
is that client entry of the requests map (none if absent). A missing or
expired record is replaced by a fresh one; the request is allowed iff the
resulting count is below RATE_LIMIT. Returns (allowed, record) and the
record is also the updated map entry. -/
def checkRateLimit (now : Int) (st : Option RateRecord) : Bool × RateRecord :=
  let record : RateRecord :=
    match st with
    | some r =>
      if r.expires < now then { count := 0, expires := now + DURATION } else r
    | none => { count := 0, expires := now + DURATION }
  if RATE_LIMIT ≤ record.count then (false, record) else (true, record)

/-! The POST /api/upload handler. -/

/-- One POST request, with every external outcome made explicit:
  - now: Date.now() at admission;
  - originMismatch: the Origin header is present and differs from url.origin;
  - isMultipartCT: the content-type header is present and starts with
    multipart/form-data;
  - contentLength: the declared content-length header (absent = none);
  - actualBodyBytes: the number of bytes actually on the wire (never
    inspected by the handler; carried to express size-independence);
  - ingest: the multipart body and its parse outcome;
  - mockMode: env.MOCK_API is the string true;
  - probe: outcome of getMediaDuration (some ms, or none if parseFile threw);
  - uploadOk: whether ai.files.upload succeeds;
  - genResult: some model name if the poll plus fallback phase produced a
    stream with that successfulModel, none if it threw or returned early. -/
structure PostInput where
  now : Int
  originMismatch : Bool
  isMultipartCT : Bool
  contentLength : Option Nat
  actualBodyBytes : Nat
  ingest : IngestInput
  mockMode : Bool
  probe : Option Nat
  uploadOk : Bool
  genResult : Option String
deriving DecidableEq, Repr

/-- Observable outcome of one POST request:
  - status / body of the response;
  - filesCreated: how many temp artifacts were created;
  - deletedIdx: the creation indices of the artifacts deleted (cleanup);
  - providerUploadCalled: whether ai.files.upload was invoked;
  - logged: the (fileSizeBytes, modelUsed, durationMs) row handed to
    logUsage, if the handler reached that call. -/
structure PostResult where
  status : Nat
  body : String
  filesCreated : Nat
  deletedIdx : List Nat
  providerUploadCalled : Bool
  logged : Option (Nat × String × Nat)
deriving DecidableEq, Repr

/-- tempFileHandle.cleanup() deletes the artifact the handle currently
references: the most recently created one. -/
def cleanupLast (n : Nat) : List Nat :=
  if n = 0 then [] else [n - 1]

/-- The large-upload check (line 167): the content-length header is present
and its numeric value exceeds MAX_UPLOAD_BYTES. -/
def declaredOversize (inp : PostInput) : Bool :=
  match inp.contentLength with
  | some n => decide (MAX_UPLOAD_BYTES < n)
  | none => false

/-- The real-mode provider phase after the duration gate: ai.files.upload,
then (inside its own try) the poll loop and the model-fallback loop,
abstracted by genResult. The finally block around the upload deletes the
temp artifact on success and on failure. -/
def realProviderPhase (record : RateRecord) (inp : PostInput)
    (fileSizeBytes created durationMs : Nat) : PostResult × Option RateRecord :=
  if ¬ inp.uploadOk then
    ({ status := 500, body := "Error uploading file", filesCreated := created,
       deletedIdx := cleanupLast created, providerUploadCalled := true,
       logged := none }, some record)
  else
    match inp.genResult with
    | none =>
      ({ status := 500,
         body := "Sorry, something went wrong generating the transcript. Please try again later.",
         filesCreated := created, deletedIdx := cleanupLast created,
         providerUploadCalled := true, logged := none }, some record)
    | some m =>
      ({ status := 200, body := "", filesCreated := created,
         deletedIdx := cleanupLast created, providerUploadCalled := true,
         logged := some (fileSizeBytes, m, durationMs) }, some record)

/-- The POST handler of +server.ts, as a function of the per-client rate
record and the request; returns the observable outcome and the new record. -/
def postHandler (st : Option RateRecord) (inp : PostInput) :
    PostResult × Option RateRecord :=
  if inp.originMismatch then
    ({ status := 403, body := "Forbidden", filesCreated := 0, deletedIdx := [],
       providerUploadCalled := false, logged := none }, st)
  else
    let ar := checkRateLimit inp.now st
    let record := ar.2
    if ar.1 = false then
      ({ status := 429,
         body := "This free service supports up to 5 requests per user per day. Please try again tomorrow.",
         filesCreated := 0, deletedIdx := [], providerUploadCalled := false,
         logged := none }, some record)
    else
      let record := { record with count := record.count + 1 }
      if ¬ inp.isMultipartCT then
        ({ status := 400, body := "Expected multipart/form-data",
           filesCreated := 0, deletedIdx := [], providerUploadCalled := false,
           logged := none }, some { record with count := record.count - 1 })
      else if declaredOversize inp then
        ({ status := 413, body := "File too large", filesCreated := 0,
           deletedIdx := [], providerUploadCalled := false, logged := none },
         some { record with count := record.count - 1 })
      else
        let fileSizeBytes : Nat := inp.contentLength.getD 0
        let ing := runIngest inp.ingest.processed
        let created := ing.written.length
        match inp.ingest.errorAt with
        | some _ =>
          ({ status := 500, body := "Error uploading file",
             filesCreated := created, deletedIdx := cleanupLast created,
             providerUploadCalled := false, logged := none },
           some { record with count := record.count - 1 })
        | none =>
          if ing.handle = none ∨ ing.uploadedFileMime = some "" then
            ({ status := 400, body := "No file uploaded", filesCreated := created,
               deletedIdx := cleanupLast created, providerUploadCalled := false,
               logged := none }, some { record with count := record.count - 1 })
          else
            if inp.mockMode then
              ({ status := 200, body := "", filesCreated := created,
                 deletedIdx := cleanupLast created, providerUploadCalled := false,
                 logged := some (fileSizeBytes, "mock-model-v1", 15000) },
               some record)
            else
              match inp.probe with
              | some d =>
                if MAX_MEDIA_DURATION_MS < d then
                  ({ status := 400,
                     body := "File is too long (" ++ toString ((d + 30000) / 60000) ++
                       " minutes). The model currently only supports up to 2 hours of audio per file.",
                     filesCreated := created, deletedIdx := cleanupLast created,
                     providerUploadCalled := false, logged := none }, some record)
                else realProviderPhase record inp fileSizeBytes created d
              | none => realProviderPhase record inp fileSizeBytes created 0

/-- Run a sequence of POST requests against an evolving rate record. -/
def runTrace (st : Option RateRecord) : List PostInput → List PostResult × Option RateRecord
  | [] => ([], st)
  | inp :: rest =>
    let r := postHandler st inp
    let rr := runTrace r.2 rest
    (r.1 :: rr.1, rr.2)

def countOf (st : Option RateRecord) : Int :=
  match st with
  | some r => r.count
  | none => 0

/-- Number of 200 responses in a result list. -/
def successes (rs : List PostResult) : Nat :=
  (rs.filter (fun r => r.status = 200)).length

/-! The poll loop (lines 303-347 of +server.ts): while the provider file
state is PROCESSING, wait 5 seconds and re-fetch; a fetch error whose
message includes 500 Internal Server Error is retried with exponential
backoff up to maxRetries consecutive times; any other fetch error is
rethrown; a successful fetch resets the retry counter. -/

/-- Outcome of one ai.files.get call inside the loop: the returned file
state, or a thrown error message. -/
inductive PollResponse where
  | got (state : String)
  | httpErr (msg : String)
deriving DecidableEq, Repr

/-- How the poll loop ends. -/
inductive PollOutcome where
  | exits (state : String)
  | unavailable
  | fatal (msg : String)
  | starved
deriving DecidableEq, Repr

def maxRetries : Nat := 3

def initialRetryDelay : Nat := 1000

/-- The error classifier of the poll loop catch block. -/
def is500Err (msg : String) : Bool :=
  strIncludes msg "500 Internal Server Error"

/-- The poll loop, driven by the trace of ai.files.get outcomes. Returns
how the loop ended and the sequence of timed waits (ms) it performed, in
order: the fixed 5000 ms wait before each re-fetch, and after a transient
error the backoff wait initialRetryDelay * 2 ^ (retries - 1) for the new
retry count. starved marks a trace too short to finish the loop. -/
def pollLoop (state : String) (retries : Nat) :
    List PollResponse → PollOutcome × List Nat
  | [] => if state = "PROCESSING" then (.starved, [5000]) else (.exits state, [])
  | r :: rest =>
    if state = "PROCESSING" then
      match r with
      | .got s =>
        let q := pollLoop s 0 rest
        (q.1, 5000 :: q.2)
      | .httpErr msg =>
        if is500Err msg then
          if maxRetries < retries + 1 then (.unavailable, [5000])
          else
            let d := initialRetryDelay * 2 ^ (retries + 1 - 1)
            let q := pollLoop state (retries + 1) rest
            (q.1, 5000 :: d :: q.2)
        else (.fatal msg, [5000])
    else (.exits state, [])

/-- Client-visible (status, body) produced after the poll loop for the
terminal outcomes: state FAILED is answered directly (line 341); the
unavailable throw and any rethrown fetch error reach the outer catch
(line 392) and become the generic transcription failure. none means the
handler continues past the loop (towards generation). -/
def pollResponseFor : PollOutcome → Option (Nat × String)
  | .exits s =>
    if s = "FAILED" then
      some (500,
        "Unfortunately this file couldn\x27t be processed. The file may be corrupt or in an unsupported format.")
    else none
  | .unavailable =>
    some (500,
      "Sorry, something went wrong generating the transcript. Please try again later.")
  | .fatal _ =>
    some (500,
      "Sorry, something went wrong generating the transcript. Please try again later.")
  | .starved => none

/-! The model-fallback loop (lines 354-391 of +server.ts). -/

/-- Outcome of one generateTranscriptWithModel call. -/
inductive AttemptResult where
  | ok
  | err (msg : String)
deriving DecidableEq, Repr

/-- The retryability test of the fallback loop catch block: the error
message includes 429, rate limit, or 503. -/
def isRetryableErr (msg : String) : Bool :=
  strIncludes msg "429" || strIncludes msg "rate limit" || strIncludes msg "503"

/-- How the fallback loop ends: a model succeeded (it becomes
successfulModel), a non-retryable error was rethrown, or the list was
exhausted (the loop then throws lastError, or the all-models-failed error
when no model was attempted). -/
inductive FallbackResult where
  | success (model : String)
  | fatal (msg : String)
  | exhausted (last : Option String)
deriving DecidableEq, Repr

/-- The fallback loop, driven by the outcome of each attempt. The second
argument threads lastError. Returns the loop outcome and the list of
models actually attempted, in order. -/
def fallbackRun (attempt : String → AttemptResult) :
    List String → Option String → FallbackResult × List String
  | [], last => (.exhausted last, [])
  | m :: rest, _ =>
    match attempt m with
    | .ok => (.success m, [m])
    | .err msg =>
      if isRetryableErr msg then
        let r := fallbackRun attempt rest (some msg)
        (r.1, m :: r.2)
      else (.fatal msg, [m])

/-! The POST /api/rate endpoint and the usage store (db.ts). -/

/-- One row of the usage_logs table. -/
structure UsageRow where
  id : Nat
  fileSizeBytes : Nat
  modelUsed : String
  durationMs : Nat
  rating : Option Int
deriving DecidableEq, Repr

/-- saveRating in db.ts: UPDATE usage_logs SET rating = ? WHERE id = ?.
Rows whose id does not match are untouched; an id matching no row leaves
the store unchanged (the UPDATE affects zero rows and does not throw). -/
def saveRating (store : List UsageRow) (id : Int) (rating : Int) : List UsageRow :=
  store.map fun row =>
    if (row.id : Int) = id then { row with rating := some rating } else row

structure RateResponse where
  status : Nat
  success : Bool
deriving DecidableEq, Repr

/-- The POST /api/rate handler: the parsed JSON body gives usageId and
rating (none models a missing field). The rating is saved iff usageId is
truthy (present and nonzero) and rating is exactly 1 or -1; otherwise the
store is untouched and the response is a 400 failure. -/
def ratePost (store : List UsageRow) (usageId : Option Int) (rating : Option Int) :
    RateResponse × List UsageRow :=
  let truthyId : Bool :=
    match usageId with
    | some n => decide (n ≠ 0)
    | none => false
  if truthyId && (rating == some 1 || rating == some (-1)) then
    match usageId, rating with
    | some n, some r => ({ status := 200, success := true }, saveRating store n r)
    | _, _ => ({ status := 400, success := false }, store)
  else ({ status := 400, success := false }, store)

/-! Concrete inputs used by witnesses and counterexamples. -/

/-- The file-part selector realized by the Busboy file handler: the parts it
persists are exactly those whose field name is the string file. -/
def fileSel : BodyPart → Option (String × List Nat)
  | .filePart n _ m c => if n = "file" then some (m, c) else none
  | .fieldPart _ _ => none

/-- A minimal well-formed multipart body with one file part. -/
def baseParts : List BodyPart :=
  [.filePart "file" "a.mp3" "audio/mpeg" [1, 2]]

/-- A mock-mode request at time t, with no content-length header. -/
def mkMockInput (t : Int) : PostInput :=
  { now := t, originMismatch := false, isMultipartCT := true,
    contentLength := none, actualBodyBytes := 2,
    ingest := { parts := baseParts, errorAt := none },
    mockMode := true, probe := none, uploadOk := true, genResult := none }

/-- A real-mode request whose duration probe reports 2 hours plus 1 minute,
which exceeds the MAX_MEDIA_DURATION_MS ceiling. -/
def durRejectInput : PostInput :=
  { now := 0, originMismatch := false, isMultipartCT := true,
    contentLength := some 100, actualBodyBytes := 100,
    ingest := { parts := baseParts, errorAt := none },
    mockMode := false, probe := some (MAX_MEDIA_DURATION_MS + 60000),
    uploadOk := true, genResult := some "gemini-2.5-flash" }

/-- A mock-mode request whose body carries two file parts both bound to the
field name file. -/
def dupFileInput : PostInput :=
  { now := 0, originMismatch := false, isMultipartCT := true,
    contentLength := none, actualBodyBytes := 2,
    ingest := { parts := [.filePart "file" "a.mp3" "audio/mpeg" [1],
                          .filePart "file" "b.mp3" "audio/mpeg" [2]],
                errorAt := none },
    mockMode := true, probe := none, uploadOk := true, genResult := none }

/-- Request times of a burst that straddles one fixed-window boundary:
one request when the window opens, four at its last instant, five right
after expiry. -/
def c3times : List Int :=
  [0, DURATION, DURATION, DURATION, DURATION,
   DURATION + 1, DURATION + 1, DURATION + 1, DURATION + 1, DURATION + 1]

def c3trace : List PostInput := c3times.map mkMockInput

/-- The prioritized model list of the fallback loop (line 354). -/
def models : List String :=
  ["gemini-3-flash-preview", "gemini-2.5-flash", "gemini-2.5-flash-lite-preview-09-2025"]

/-- A provider behavior for the fallback witness: the first model is rate
limited, every other model succeeds. -/
def attemptW : String → AttemptResult :=
  fun m => if m = "gemini-3-flash-preview" then .err "429 RESOURCE_EXHAUSTED" else .ok

/-- A one-row usage store. -/
def store0 : List UsageRow :=
  [{ id := 1, fileSizeBytes := 10, modelUsed := "m", durationMs := 5, rating := none }]

/-- A request whose content type is not multipart/form-data. -/
def badCTInput : PostInput :=
  { now := 0, originMismatch := false, isMultipartCT := false,
    contentLength := none, actualBodyBytes := 0,
    ingest := { parts := [], errorAt := none },
    mockMode := true, probe := none, uploadOk := true, genResult := none }

/-! Theorems. -/

/-- C9: the stream relay forwards to the client exactly the non-empty text
deltas, in arrival order: chunks with absent or empty text are dropped and
nothing else is inserted. -/
theorem streamChunks_forwards_exactly_nonempty (chunks : List (Option String)) :
    streamChunks chunks = (chunks.filterMap id).filter (fun t => decide (t ≠ "")) := by
  induction chunks with
  | nil => rfl
  | cons c rest ih =>
    cases c with
    | none => simpa [streamChunks] using ih
    | some t =>
      by_cases h : t = "" <;> simp [streamChunks, h, ih]

/-- Helper: the written-files field of the ingestion fold is the previous
written list extended with the file parts bound to the field name file. -/
theorem ingest_written_fold :
    ∀ (ps : List BodyPart) (s : IngestState),
      (ps.foldl ingestStep s).written = s.written ++ ps.filterMap fileSel
  | [], _ => by simp
  | p :: ps, s => by
    rw [List.foldl_cons, ingest_written_fold ps]
    cases p with
    | fieldPart n v =>
      by_cases hn : n = "language" <;> simp [ingestStep, hn, fileSel]
    | filePart n f m c =>
      by_cases hn : n = "file" <;> simp [ingestStep, hn, fileSel]

/-- Helper: the temp-file handle always references the most recently created
temp file. -/
theorem ingest_handle_inv :
    ∀ (ps : List BodyPart) (s : IngestState),
      s.handle = (if s.written.length = 0 then none else some (s.written.length - 1)) →
      (ps.foldl ingestStep s).handle =
        (if (ps.foldl ingestStep s).written.length = 0 then none
         else some ((ps.foldl ingestStep s).written.length - 1))
  | [], _, h => h
  | p :: ps, s, h => by
    rw [List.foldl_cons]
    refine ingest_handle_inv ps _ ?_
    cases p with
    | fieldPart n v =>
      by_cases hn : n = "language" <;> simpa [ingestStep, hn] using h
    | filePart n f m c =>
      by_cases hn : n = "file" <;> simp [ingestStep, hn, h]

/-- C7 (amended): during multipart ingestion, the parts persisted to
temporary artifacts are exactly the file parts bound to the field name
file — each of them, in arrival order and with its full content; file parts
with any other field name are drained and never written. When several parts
are named file, each gets its own artifact (not just one) and the retained
handle references the last one. -/
theorem ingest_persists_every_file_field (ps : List BodyPart) :
    (runIngest ps).written = ps.filterMap fileSel ∧
    (runIngest ps).handle =
      (if (runIngest ps).written.length = 0 then none
       else some ((runIngest ps).written.length - 1)) := by
  constructor
  · simpa [runIngest] using ingest_written_fold ps _
  · exact ingest_handle_inv ps _ (by simp)

/-- C7 counterexample: a request with two file parts both bound to the
field name file persists both to disk; the claim that exactly one file part
is persisted and every additional file part is discarded without being
written is false. -/
theorem ingest_duplicate_file_parts_counterexample :
    (runIngest [BodyPart.filePart "file" "a.mp3" "audio/mpeg" [1],
                BodyPart.filePart "file" "b.mp3" "audio/mpeg" [2]]).written =
      [("audio/mpeg", [1]), ("audio/mpeg", [2])] ∧
    ¬ ((runIngest [BodyPart.filePart "file" "a.mp3" "audio/mpeg" [1],
                   BodyPart.filePart "file" "b.mp3" "audio/mpeg" [2]]).written.length ≤ 1) := by
  decide

/-- Helper: an UPDATE whose id matches no row leaves the store unchanged. -/
theorem saveRating_no_match :
    ∀ (store : List UsageRow) (n r : Int),
      (∀ row ∈ store, (row.id : Int) ≠ n) → saveRating store n r = store
  | [], _, _, _ => rfl
  | a :: l, n, r, h => by
    have tl := saveRating_no_match l n r (fun row hr => h row (List.mem_cons_of_mem a hr))
    simp only [saveRating, List.map_cons] at tl ⊢
    rw [if_neg (h a (List.mem_cons_self a l)), tl]

/-- C8 (amended): a rating outside the set containing 1 and -1, or a
missing/falsy usageId, yields a 400 response and leaves every usage record
unchanged; a rating of 1 or -1 keyed to an unknown recordId also leaves the
store unchanged, but it is not rejected: the endpoint saves nothing and
still answers 200 success. -/
theorem ratePost_validation (store : List UsageRow) (usageId rating : Option Int) :
    (((∀ n, usageId = some n → n = 0) ∨ (rating ≠ some 1 ∧ rating ≠ some (-1))) →
      ratePost store usageId rating = ({ status := 400, success := false }, store)) ∧
    (∀ n r, usageId = some n → n ≠ 0 → (r = 1 ∨ r = -1) → rating = some r →
      (∀ row ∈ store, (row.id : Int) ≠ n) →
      ratePost store usageId rating = ({ status := 200, success := true }, store)) := by
  constructor
  · intro h
    unfold ratePost
    rcases h with h | ⟨h1, h2⟩
    · cases usageId with
      | none => simp
      | some n =>
        have hn := h n rfl
        subst hn
        simp
    · have hb : (rating == some 1 || rating == some (-1)) = false := by
        simp [beq_iff_eq, h1, h2]
      simp [hb]
  · intro n r hu hn hr hrat hstore
    subst hu
    subst hrat
    unfold ratePost
    have ht : decide (n ≠ 0) = true := by simp [hn]
    have hb : ((some r : Option Int) == some 1 || (some r : Option Int) == some (-1)) = true := by
      rcases hr with h | h <;> simp [h]
    simp [ht, hb]
    rw [if_pos hr, saveRating_no_match store n r hstore]

/-- C8 witness: the amended theorem applied to a concrete store: an unknown
id with a valid rating gives success and no change; a missing usageId gives
400 and no change. -/
theorem ratePost_validation_witness :
    ratePost store0 (some 3) (some (-1)) = ({ status := 200, success := true }, store0) ∧
    ratePost store0 none (some 1) = ({ status := 400, success := false }, store0) := by
  constructor
  · exact (ratePost_validation store0 (some 3) (some (-1))).2 3 (-1) rfl (by decide)
      (Or.inr rfl) rfl (by decide)
  · exact (ratePost_validation store0 none (some 1)).1 (Or.inl (fun n h => by cases h))

/-- C8 counterexample: with a store holding only record 1, submitting a
valid rating for the unknown recordId 2 is answered 200 success, not
rejected; the original claim that an unknown recordId is rejected is false
(the absence of side effect does hold). -/
theorem ratePost_unknown_id_not_rejected :
    ratePost store0 (some 2) (some 1) = ({ status := 200, success := true }, store0) ∧
    (200 : Nat) ≠ 400 := by
  decide

/-- Helper: a run of retryable failures is skipped: the loop attempts each
of those models, threads lastError, and continues with the rest of the
list. -/
theorem fallbackRun_append (attempt : String → AttemptResult) :
    ∀ (pre : List String),
      (∀ p ∈ pre, ∃ msg, attempt p = .err msg ∧ isRetryableErr msg = true) →
      ∀ (rest : List String) (last : Option String),
        ∃ last2, fallbackRun attempt (pre ++ rest) last =
          ((fallbackRun attempt rest last2).1, pre ++ (fallbackRun attempt rest last2).2)
  | [], _, rest, last => ⟨last, rfl⟩
  | p :: ps, h, rest, last => by
    obtain ⟨msg, hmsg, hretry⟩ := h p (List.mem_cons_self p ps)
    obtain ⟨last2, hl⟩ :=
      fallbackRun_append attempt ps (fun q hq => h q (List.mem_cons_of_mem p hq)) rest (some msg)
    refine ⟨last2, ?_⟩
    simp [fallbackRun, hmsg, hretry, hl]

/-- Helper: when every model in the list fails retryably, the loop attempts
them all and ends exhausted. -/
theorem fallbackRun_all_retryable (attempt : String → AttemptResult) :
    ∀ (l : List String),
      (∀ p ∈ l, ∃ msg, attempt p = .err msg ∧ isRetryableErr msg = true) →
      ∀ (last : Option String),
        ∃ last2, fallbackRun attempt l last = (.exhausted last2, l)
  | [], _, last => ⟨last, rfl⟩
  | p :: ps, h, last => by
    obtain ⟨msg, hmsg, hretry⟩ := h p (List.mem_cons_self p ps)
    obtain ⟨last2, hl⟩ :=
      fallbackRun_all_retryable attempt ps (fun q hq => h q (List.mem_cons_of_mem p hq)) (some msg)
    refine ⟨last2, ?_⟩
    simp [fallbackRun, hmsg, hretry, hl]

/-- C4: the fallback loop attempts the prioritized model list in order.
With every model before m failing retryably (429 / rate limit / 503
message): if m succeeds, the loop ends with successfulModel m having
attempted exactly the models up to and including m — no later model is ever
attempted; if m fails non-retryably, the loop aborts there without trying
further models; if every model fails retryably, the list is exhausted and
the loop ends in the terminal exhausted failure after attempting the whole
list. -/
theorem fallback_model_order (attempt : String → AttemptResult)
    (pre post : List String) (m : String)
    (hpre : ∀ p ∈ pre, ∃ msg, attempt p = .err msg ∧ isRetryableErr msg = true) :
    (attempt m = .ok →
      fallbackRun attempt (pre ++ m :: post) none = (.success m, pre ++ [m])) ∧
    (∀ msg, attempt m = .err msg → isRetryableErr msg = false →
      fallbackRun attempt (pre ++ m :: post) none = (.fatal msg, pre ++ [m])) ∧
    ((∃ msg, attempt m = .err msg ∧ isRetryableErr msg = true) →
      (∀ p ∈ post, ∃ msg, attempt p = .err msg ∧ isRetryableErr msg = true) →
      ∃ last, fallbackRun attempt (pre ++ m :: post) none = (.exhausted last, pre ++ m :: post)) := by
  obtain ⟨last2, hl⟩ := fallbackRun_append attempt pre hpre (m :: post) none
  refine ⟨?_, ?_, ?_⟩
  · intro hok
    rw [hl]
    simp [fallbackRun, hok]
  · intro msg herr hnr
    rw [hl]
    simp [fallbackRun, herr, hnr]
  · intro hm hpost
    have hall : ∀ p ∈ m :: post, ∃ msg, attempt p = .err msg ∧ isRetryableErr msg = true := by
      intro p hp
      rcases List.mem_cons.mp hp with h | h
      · subst h; exact hm
      · exact hpost p h
    obtain ⟨last3, h3⟩ := fallbackRun_all_retryable attempt (m :: post) hall last2
    rw [hl, h3]
    exact ⟨last3, rfl⟩

/-- C4 witness: with the first configured model rate limited and the second
succeeding, the loop returns the second model as successfulModel and the
third model is never attempted. -/
theorem fallback_model_order_witness :
    fallbackRun attemptW models none =
      (.success "gemini-2.5-flash", ["gemini-3-flash-preview", "gemini-2.5-flash"]) := by
  have h := (fallback_model_order attemptW ["gemini-3-flash-preview"]
      ["gemini-2.5-flash-lite-preview-09-2025"] "gemini-2.5-flash"
      (by
        intro p hp
        have hp2 : p = "gemini-3-flash-preview" := by simpa using hp
        subst hp2
        exact ⟨"429 RESOURCE_EXHAUSTED", by decide, by decide⟩)).1 (by decide)
  simpa [models] using h

/-- C6: while the provider file state is PROCESSING the poll loop waits a
fixed 5000 ms before each re-check; a fetch error carrying a 500-class
message increments the retry count and backs off for
initialRetryDelay * 2 ^ (retries - 1) ms, up to maxRetries = 3 consecutive
retries, after which the loop ends in the terminal unavailable failure; a
successful fetch resets the retry counter to 0; a provider state of FAILED
exits the loop at once, is never retried, and its client-visible error
differs from the retry-exhaustion one. -/
theorem pollLoop_behavior :
    (∀ (retries : Nat) (r : PollResponse) (rest : List PollResponse),
      ((pollLoop "PROCESSING" retries (r :: rest)).2).head? = some 5000) ∧
    (∀ (retries : Nat) (msg : String) (rest : List PollResponse),
      is500Err msg = true → retries + 1 ≤ maxRetries →
      pollLoop "PROCESSING" retries (.httpErr msg :: rest) =
        ((pollLoop "PROCESSING" (retries + 1) rest).1,
          5000 :: initialRetryDelay * 2 ^ retries ::
            (pollLoop "PROCESSING" (retries + 1) rest).2)) ∧
    (∀ (msg : String) (rest : List PollResponse),
      is500Err msg = true →
      pollLoop "PROCESSING" maxRetries (.httpErr msg :: rest) = (.unavailable, [5000])) ∧
    (∀ (retries : Nat) (s : String) (rest : List PollResponse),
      pollLoop "PROCESSING" retries (.got s :: rest) =
        ((pollLoop s 0 rest).1, 5000 :: (pollLoop s 0 rest).2)) ∧
    (∀ (retries : Nat) (trace : List PollResponse),
      pollLoop "FAILED" retries trace = (.exits "FAILED", [])) ∧
    pollResponseFor (.exits "FAILED") ≠ pollResponseFor .unavailable := by
  refine ⟨?_, ?_, ?_, ?_, ?_, by decide⟩
  · intro retries r rest
    cases r with
    | got s => simp [pollLoop]
    | httpErr msg =>
      by_cases h5 : is500Err msg
      · by_cases hcap : maxRetries < retries + 1 <;> simp [pollLoop, h5, hcap]
      · simp [pollLoop, h5]
  · intro retries msg rest h5 hcap
    have : ¬ maxRetries < retries + 1 := by omega
    simp [pollLoop, h5, this]
  · intro msg rest h5
    have : maxRetries < maxRetries + 1 := by omega
    simp [pollLoop, h5, this]
  · intro retries s rest
    simp [pollLoop]
  · intro retries trace
    cases trace <;> simp [pollLoop]

/-- C1 (amended): on every exit path of the POST handler — success in real
and mock mode, multipart parse failure, missing-file validation failure,
duration-ceiling rejection, provider upload failure — the handler deletes
exactly the temporary artifact its retained handle references: the most
recently created one. When duplicate parts named file created several
artifacts, the earlier ones are not deleted. -/
theorem postHandler_deletes_last_artifact (st : Option RateRecord) (inp : PostInput) :
    (postHandler st inp).1.deletedIdx = cleanupLast (postHandler st inp).1.filesCreated := by
  simp only [postHandler, realProviderPhase]
  repeat' split
  all_goals rfl

/-- C1 counterexample: a mock-mode request whose body has two file parts
both bound to the field name file creates two temporary artifacts but
deletes only the second; artifact 0 is still on disk when the handler
returns, so the claim that the artifact file is deleted on every exit path
is false. -/
theorem postHandler_artifact_leak_counterexample :
    (postHandler none dupFileInput).1.status = 200 ∧
    (postHandler none dupFileInput).1.filesCreated = 2 ∧
    (postHandler none dupFileInput).1.deletedIdx = [1] ∧
    0 ∉ (postHandler none dupFileInput).1.deletedIdx := by
  decide

/-- C5: in real mode, when the duration probe succeeds and reports a media
duration strictly over the 2-hour ceiling, the request is rejected with a
400 whose text states the measured duration rounded to minutes, and
ai.files.upload is never called; when the probe fails, the failure is
swallowed and the request proceeds to the provider upload. -/
theorem duration_gate (st : Option RateRecord) (inp : PostInput)
    (ho : inp.originMismatch = false)
    (ha : (checkRateLimit inp.now st).1 = true)
    (hct : inp.isMultipartCT = true)
    (hsz : declaredOversize inp = false)
    (hpe : inp.ingest.errorAt = none)
    (hfile : ¬ ((runIngest inp.ingest.processed).handle = none ∨
                (runIngest inp.ingest.processed).uploadedFileMime = some ""))
    (hmock : inp.mockMode = false) :
    (∀ d, inp.probe = some d → MAX_MEDIA_DURATION_MS < d →
      (postHandler st inp).1.status = 400 ∧
      (postHandler st inp).1.body =
        "File is too long (" ++ toString ((d + 30000) / 60000) ++
          " minutes). The model currently only supports up to 2 hours of audio per file." ∧
      (postHandler st inp).1.providerUploadCalled = false) ∧
    (inp.probe = none → (postHandler st inp).1.providerUploadCalled = true) := by
  constructor
  · intro d hd hgt
    simp [postHandler, ho, ha, hct, hsz, hpe, hmock, hfile, hd, hgt]
  · intro hnone
    simp only [postHandler, realProviderPhase, ho, ha, hct, hsz, hpe, hmock, hnone]
    simp only [hfile]
    repeat' split
    all_goals simp_all

/-- C5 witness: the duration gate applied to a request whose probe reports
2 hours and 1 minute: status 400, the body states 121 minutes, and the
provider upload is never attempted. -/
theorem duration_gate_witness :
    (postHandler none durRejectInput).1.status = 400 ∧
    (postHandler none durRejectInput).1.providerUploadCalled = false ∧
    (postHandler none durRejectInput).1.body =
      "File is too long (121 minutes). The model currently only supports up to 2 hours of audio per file." := by
  have h := (duration_gate none durRejectInput rfl (by decide) rfl (by decide) rfl
      (by decide) rfl).1 (MAX_MEDIA_DURATION_MS + 60000) rfl (by decide)
  refine ⟨h.1, h.2.2, ?_⟩
  rw [h.2.1]
  decide

/-- C2 (amended): after a request is admitted (counter incremented), each of
the four local validation failures — non-multipart content type, declared
body size over the ceiling, multipart parse failure, missing file — refunds
the charge: the counter returns to its pre-admission value before the error
response. The duration-ceiling rejection, however, does not refund: the
charge is retained (counter stays at pre-admission value plus one). -/
theorem refund_on_local_validation (st : Option RateRecord) (inp : PostInput)
    (ho : inp.originMismatch = false)
    (ha : (checkRateLimit inp.now st).1 = true) :
    (inp.isMultipartCT = false →
      (postHandler st inp).1.status = 400 ∧
      countOf (postHandler st inp).2 = (checkRateLimit inp.now st).2.count) ∧
    (inp.isMultipartCT = true → declaredOversize inp = true →
      (postHandler st inp).1.status = 413 ∧
      countOf (postHandler st inp).2 = (checkRateLimit inp.now st).2.count) ∧
    (inp.isMultipartCT = true → declaredOversize inp = false →
      ∀ k, inp.ingest.errorAt = some k →
      (postHandler st inp).1.status = 500 ∧
      countOf (postHandler st inp).2 = (checkRateLimit inp.now st).2.count) ∧
    (inp.isMultipartCT = true → declaredOversize inp = false →
      inp.ingest.errorAt = none →
      ((runIngest inp.ingest.processed).handle = none ∨
       (runIngest inp.ingest.processed).uploadedFileMime = some "") →
      (postHandler st inp).1.status = 400 ∧
      countOf (postHandler st inp).2 = (checkRateLimit inp.now st).2.count) ∧
    (inp.isMultipartCT = true → declaredOversize inp = false →
      inp.ingest.errorAt = none →
      ¬ ((runIngest inp.ingest.processed).handle = none ∨
         (runIngest inp.ingest.processed).uploadedFileMime = some "") →
      inp.mockMode = false →
      ∀ d, inp.probe = some d → MAX_MEDIA_DURATION_MS < d →
      (postHandler st inp).1.status = 400 ∧
      countOf (postHandler st inp).2 = (checkRateLimit inp.now st).2.count + 1) := by
  refine ⟨?_, ?_, ?_, ?_, ?_⟩
  · intro hct
    simp [postHandler, countOf, ho, ha, hct]
  · intro hct hov
    simp [postHandler, countOf, ho, ha, hct, hov]
  · intro hct hov k hk
    simp [postHandler, countOf, ho, ha, hct, hov, hk]
  · intro hct hov hpe hmf
    simp [postHandler, countOf, ho, ha, hct, hov, hpe, hmf]
  · intro hct hov hpe hmf hmock d hd hgt
    simp [postHandler, countOf, ho, ha, hct, hov, hpe, hmf, hmock, hd, hgt]

/-- C2 witness: a non-multipart request from a fresh client: the response is
400 and the counter is back at its pre-admission value 0. -/
theorem refund_on_local_validation_witness :
    (postHandler none badCTInput).1.status = 400 ∧
    countOf (postHandler none badCTInput).2 = 0 := by
  have h := (refund_on_local_validation none badCTInput rfl (by decide)).1 rfl
  exact ⟨h.1, h.2.trans (by decide)⟩

/-- C2 counterexample: a fresh client (counter 0) is admitted (counter 1)
and then rejected by the duration ceiling; the error response goes out with
the counter still at 1, not decremented back to 0, so the claim that the
duration-ceiling rejection refunds the admission charge is false. -/
theorem refund_missing_on_duration_counterexample :
    (postHandler none durRejectInput).1.status = 400 ∧
    countOf (none : Option RateRecord) = 0 ∧
    countOf (postHandler none durRejectInput).2 = 1 := by
  decide

set_option maxHeartbeats 1000000 in
/-- C10: when a POST request carries no content-length header, the 256MB
ceiling is not enforced at all — the outcome is independent of the number
of bytes actually uploaded and is never a 413 — and any row written to the
usage ledger records fileSizeBytes 0. -/
theorem no_content_length_no_size_check (st : Option RateRecord) (inp : PostInput)
    (h : inp.contentLength = none) :
    (∀ b, postHandler st { inp with actualBodyBytes := b } = postHandler st inp) ∧
    (postHandler st inp).1.status ≠ 413 ∧
    (∀ x, (postHandler st inp).1.logged = some x → x.1 = 0) := by
  have hsz : declaredOversize inp = false := by simp [declaredOversize, h]
  refine ⟨?_, ?_, ?_⟩
  · intro b
    cases inp
    rfl
  · simp only [postHandler, realProviderPhase, hsz, h]
    repeat' split
    all_goals first
      | contradiction
      | simp
  · intro x
    simp only [postHandler, realProviderPhase, hsz, h]
    repeat' split
    all_goals intro hx
    all_goals first
      | contradiction
      | (cases hx; rfl)

/-- C10 witness: a mock-mode request without a content-length header
succeeds with ledger fileSizeBytes 0, and its outcome is unchanged when the
wire carries a billion body bytes. -/
theorem no_content_length_no_size_check_witness :
    postHandler none { mkMockInput 0 with actualBodyBytes := 1000000000 } =
      postHandler none (mkMockInput 0) ∧
    (postHandler none (mkMockInput 0)).1.status = 200 ∧
    (postHandler none (mkMockInput 0)).1.logged = some (0, "mock-model-v1", 15000) := by
  have h := no_content_length_no_size_check none (mkMockInput 0) rfl
  exact ⟨h.1 1000000000, by decide, by decide⟩

/-- Helper: an origin-mismatch request from a fresh client gets 403 and
leaves the client state absent. -/
theorem postHandler_none_origin (inp : PostInput) (hom : inp.originMismatch = true) :
    (postHandler none inp).1.status = 403 ∧ (postHandler none inp).2 = none := by
  constructor <;> simp [postHandler, hom]

/-- Helper: for a request that passes the origin check, a fresh client
behaves like a zero-count record whose window expires DURATION from now. -/
theorem postHandler_none_eq (inp : PostInput) (hom : inp.originMismatch = false) :
    postHandler none inp =
      postHandler (some { count := 0, expires := inp.now + DURATION }) inp := by
  have hlt : ¬ ((inp.now + DURATION : Int) < inp.now) := by
    unfold DURATION
    omega
  simp [postHandler, checkRateLimit, hlt, hom]

/-- Helper: one POST step from an unexpired record (computed from
checkRateLimit with the reset branch excluded). -/
theorem checkRateLimit_unexpired (r : RateRecord) (now : Int)
    (hexp : ¬ (r.expires < now)) :
    checkRateLimit now (some r) =
      (if RATE_LIMIT ≤ r.count then (false, r) else (true, r)) := by
  simp [checkRateLimit, hexp]

/-- Helper: how one POST request moves the per-client counter when the
current record is unexpired: the window expiry is preserved; the counter
never decreases below its pre-request value and rises by at most one; a
full counter stays unchanged and (absent an origin mismatch) forces a 429;
a 200 response implies the counter was below the limit and rose by exactly
one. -/
theorem postHandler_count_step (r : RateRecord) (inp : PostInput)
    (hexp : ¬ (r.expires < inp.now)) :
    ∃ r2, (postHandler (some r) inp).2 = some r2 ∧
      r2.expires = r.expires ∧
      r.count ≤ r2.count ∧ r2.count ≤ r.count + 1 ∧
      (RATE_LIMIT ≤ r.count →
        r2.count = r.count ∧
        (inp.originMismatch = false → (postHandler (some r) inp).1.status = 429)) ∧
      ((postHandler (some r) inp).1.status = 200 →
        r2.count = r.count + 1 ∧ r.count < RATE_LIMIT) := by
  have hcr := checkRateLimit_unexpired r inp.now hexp
  by_cases h5 : RATE_LIMIT ≤ r.count
  · rw [if_pos h5] at hcr
    by_cases hom : inp.originMismatch = true
    · refine ⟨r, ?_, rfl, le_refl _, by omega, ?_, ?_⟩
      · simp [postHandler, hom]
      · intro _
        refine ⟨rfl, ?_⟩
        intro hf
        rw [hom] at hf
        cases hf
      · intro habs
        have : (postHandler (some r) inp).1.status = 403 := by simp [postHandler, hom]
        rw [this] at habs
        cases habs
    · have heq : postHandler (some r) inp =
          ({ status := 429,
             body := "This free service supports up to 5 requests per user per day. Please try again tomorrow.",
             filesCreated := 0, deletedIdx := [], providerUploadCalled := false,
             logged := none }, some r) := by
        simp [postHandler, hom, hcr]
      rw [heq]
      exact ⟨r, rfl, rfl, le_refl _, by omega, fun _ => ⟨rfl, fun _ => rfl⟩,
        fun habs => by cases habs⟩
  · rw [if_neg h5] at hcr
    by_cases hom : inp.originMismatch = true
    · refine ⟨r, ?_, rfl, le_refl _, by omega, fun habs => absurd habs h5, ?_⟩
      · simp [postHandler, hom]
      · intro habs
        have : (postHandler (some r) inp).1.status = 403 := by simp [postHandler, hom]
        rw [this] at habs
        cases habs
    · simp [postHandler, realProviderPhase, hom, hcr]
      repeat' split
      all_goals refine ⟨_, rfl, rfl, by first | omega | (dsimp only; omega),
        by first | omega | (dsimp only; omega), fun habs => absurd habs h5, ?_⟩
      all_goals intro h200
      all_goals first
        | exact ⟨rfl, by omega⟩
        | cases h200

/-- Helper: one step of successes counting. -/
theorem successes_cons (x : PostResult) (l : List PostResult) :
    successes (x :: l) = (if x.status = 200 then 1 else 0) + successes l := by
  unfold successes
  by_cases h : x.status = 200
  all_goals simp [List.filter_cons, h]
  all_goals omega

/-- Helper: inside one window — every request time at most tEnd and at
least tEnd - DURATION — a trace starting from an absent or unexpired,
within-limit client record yields at most RATE_LIMIT minus the held charge
many 200 responses. -/
theorem runTrace_window_bound :
    ∀ (inps : List PostInput) (tEnd : Int) (st : Option RateRecord),
      (∀ inp ∈ inps, tEnd - DURATION ≤ inp.now ∧ inp.now ≤ tEnd) →
      (∀ r, st = some r → tEnd ≤ r.expires ∧ r.count ≤ RATE_LIMIT) →
      (successes (runTrace st inps).1 : Int) ≤ RATE_LIMIT - countOf st
  | [], tEnd, st, _, hst => by
    simp only [runTrace, successes, List.filter_nil, List.length_nil, Nat.cast_zero]
    cases st with
    | none =>
      simp only [countOf, RATE_LIMIT]
      omega
    | some r =>
      have := (hst r rfl).2
      simp only [countOf]
      omega
  | inp :: rest, tEnd, st, hin, hst => by
    have hrt : (runTrace st (inp :: rest)).1 =
        (postHandler st inp).1 :: (runTrace ((postHandler st inp).2) rest).1 := rfl
    have hinr : ∀ i ∈ rest, tEnd - DURATION ≤ i.now ∧ i.now ≤ tEnd :=
      fun i hi => hin i (List.mem_cons_of_mem inp hi)
    cases st with
    | none =>
      by_cases hom : inp.originMismatch = true
      · obtain ⟨hs403, hst2⟩ := postHandler_none_origin inp hom
        rw [hrt, hst2, successes_cons, hs403]
        have hrec := runTrace_window_bound rest tEnd none hinr (fun r hr => by cases hr)
        simp only [countOf] at hrec ⊢
        push_cast
        omega
      · have hom2 : inp.originMismatch = false := by
          cases hval : inp.originMismatch
          · rfl
          · exact absurd hval hom
        have hfresh : ¬ (({ count := 0, expires := inp.now + DURATION } : RateRecord).expires
            < inp.now) := by
          simp only
          unfold DURATION
          omega
        obtain ⟨r2, h2, hexpeq, hge, hle, hcap, h200⟩ :=
          postHandler_count_step { count := 0, expires := inp.now + DURATION } inp hfresh
        have hrec := runTrace_window_bound rest tEnd (some r2) hinr
          (fun r hr => by
            cases hr
            refine ⟨?_, ?_⟩
            · rw [hexpeq]
              have := (hin inp (List.mem_cons_self inp rest)).1
              simp only
              unfold DURATION at *
              omega
            · simp only [RATE_LIMIT] at *
              omega)
        rw [hrt, postHandler_none_eq inp hom2, h2, successes_cons]
        have hd0 : ({ count := 0, expires := inp.now + DURATION } : RateRecord).count = 0 := rfl
        simp only [countOf, RATE_LIMIT] at hrec ⊢
        by_cases hs : (postHandler (some { count := 0, expires := inp.now + DURATION }) inp).1.status
            = 200
        · have hcnt := h200 hs
          rw [if_pos hs]
          simp only [RATE_LIMIT] at hcnt
          push_cast
          omega
        · rw [if_neg hs]
          push_cast
          omega
    | some r =>
      obtain ⟨htEnd, hcle⟩ := hst r rfl
      have hexp : ¬ (r.expires < inp.now) := by
        have := (hin inp (List.mem_cons_self inp rest)).2
        omega
      obtain ⟨r2, h2, hexpeq, hge, hle, hcap, h200⟩ := postHandler_count_step r inp hexp
      have hc2 : r2.count ≤ RATE_LIMIT := by
        by_cases h : RATE_LIMIT ≤ r.count
        · have := (hcap h).1
          omega
        · omega
      have hrec := runTrace_window_bound rest tEnd (some r2) hinr
        (fun r3 hr3 => by
          cases hr3
          exact ⟨by rw [hexpeq]; exact htEnd, hc2⟩)
      rw [hrt, h2, successes_cons]
      simp only [countOf, RATE_LIMIT] at hrec ⊢
      by_cases hs : (postHandler (some r) inp).1.status = 200
      · have hcnt := h200 hs
        rw [if_pos hs]
        simp only [RATE_LIMIT] at hcnt
        push_cast
        omega
      · rw [if_neg hs]
        push_cast
        omega

/-- C3 (amended): the limiter is a fixed window, not a rolling one. Within
one fixed window — a trace of requests from a fresh client whose times all
lie within DURATION of a base time t0 at or before the first request — at
most 5 requests receive a 200 response; and whenever the stored record is
unexpired and already holds RATE_LIMIT charges, a request that passes the
origin check is rejected with the distinguished 429 status, never a generic
error. Across a window boundary, however, more than 5 requests can succeed
inside a rolling 24-hour interval (see the counterexample). -/
theorem rate_limit_fixed_window (t0 : Int) (inps : List PostInput)
    (hin : ∀ inp ∈ inps, t0 ≤ inp.now ∧ inp.now ≤ t0 + DURATION) :
    successes (runTrace none inps).1 ≤ 5 ∧
    (∀ (r : RateRecord) (inp2 : PostInput), RATE_LIMIT ≤ r.count →
      ¬ (r.expires < inp2.now) → inp2.originMismatch = false →
      (postHandler (some r) inp2).1.status = 429) := by
  constructor
  · have hb := runTrace_window_bound inps (t0 + DURATION) none
      (by
        intro i hi
        have := hin i hi
        omega)
      (fun r hr => by cases hr)
    simp only [countOf, RATE_LIMIT] at hb
    omega
  · intro r inp2 h5 hexp hom
    obtain ⟨r2, _, _, _, _, hcap, _⟩ := postHandler_count_step r inp2 hexp
    exact (hcap h5).2 hom

/-- C3 witness: the fixed-window bound applied to a concrete two-request
trace inside one window. -/
theorem rate_limit_fixed_window_witness :
    successes (runTrace none [mkMockInput 0, mkMockInput 1]).1 ≤ 5 := by
  exact (rate_limit_fixed_window 0 [mkMockInput 0, mkMockInput 1] (by decide)).1

/-- C3 counterexample: ten successful admitted requests from one client —
one when the window opens, four at its last instant, five right after
expiry. All ten succeed with 200, and the nine requests at times DURATION
and DURATION + 1 all lie inside the single rolling 24-hour interval from
DURATION to DURATION + DURATION; so more than 5 admitted requests succeed
within a rolling 24-hour window and the 6th such request is not rejected,
refuting the claim as stated. -/
theorem rolling_window_counterexample :
    successes (runTrace none c3trace).1 = 10 ∧
    ((c3trace.zip (runTrace none c3trace).1).filter
        (fun p => decide (DURATION ≤ p.1.now) && decide (p.1.now ≤ DURATION + DURATION)
          && decide (p.2.status = 200))).length = 9 ∧
    ¬ (((c3trace.zip (runTrace none c3trace).1).filter
        (fun p => decide (DURATION ≤ p.1.now) && decide (p.1.now ≤ DURATION + DURATION)
          && decide (p.2.status = 200))).length ≤ 5) := by
  decide

/-- C6 witness: one transient 500-class poll error followed by a successful
poll reporting ACTIVE: the loop waits 5000 ms, backs off 1000 ms
(initialRetryDelay * 2 ^ 0), waits 5000 ms again and exits with state
ACTIVE. -/
theorem pollLoop_behavior_witness :
    pollLoop "PROCESSING" 0
        [.httpErr "got status: 500 Internal Server Error", .got "ACTIVE"] =
      (.exits "ACTIVE", [5000, 1000, 5000]) := by
  have h := pollLoop_behavior
  rw [h.2.1 0 "got status: 500 Internal Server Error" [.got "ACTIVE"] (by decide) (by decide)]
  rw [h.2.2.2.1 1 "ACTIVE" []]
  simp [pollLoop, initialRetryDelay]
